import Mathlib

/-!
# Verification of the chatbot-query-library orchestration core

Shallow embedding of the repository's orchestration logic:

* `src/chatbot_query_library/multichatbot.py` — `MultiChatbot.query` (the
  merge of checkpoint files into the output file) and
  `MultiChatbot._query_chatbot` (the per-adapter worker loop: remaining-work
  computation, per-prompt retry loop, error classification, escalating
  cool-down, checkpoint rewrite).
* `src/chatbot_query_library/cookies.py` — `CookieManager.rotate_cookie_file`
  and `CookieManager.kill_cookie_file`.

Python `float` timestamps are modelled as `Nat` (their value is never
inspected by the code under verification); the rendered temperature value is
modelled as the string/scalar it is serialized as.  Python `int` arithmetic
`runs - prompt_runs` compared against a counter starting at `0` is modelled
with `Nat` truncated subtraction, which yields the same iteration count
(`run < runs - prompt_runs` is false for non-positive differences either way).
-/

/-- One entry of a checkpoint or output file, as built at
`multichatbot.py:131-137`: `{timestamp, chatbot, prompt, temperature,
response}`. -/
structure ResultRecord where
  timestamp : Nat
  chatbot : String
  prompt : String
  temperature : String
  response : String
deriving DecidableEq

/-- The chatbot classes whose `isinstance` checks drive the error handling in
`_query_chatbot` (`OpenAI`, `HuggingFace`, `Gemini`, `Copilot` from
`chatbot.py`). -/
inductive ChatbotKind where
  | openai
  | huggingface
  | gemini
  | copilot
deriving DecidableEq

/-- `isinstance(chatbot, _UnofficialChatbot)`: `Gemini` and `Copilot` extend
`_UnofficialChatbot` in `chatbot.py`; `OpenAI` and `HuggingFace` extend
`_Chatbot` directly. -/
def ChatbotKind.isUnofficial : ChatbotKind → Bool
  | .gemini => true
  | .copilot => true
  | _ => false

/-- The attributes of a chatbot object that `_query_chatbot` reads: its
display name, its class (for the `isinstance` dispatch) and the value its
temperature renders to in a `ResultRecord` (`temperature_to_string()` for a
`ConversationStyle`, the raw attribute otherwise — `multichatbot.py:135`). -/
structure Chatbot where
  name : String
  kind : ChatbotKind
  temperatureStr : String
deriving DecidableEq

/-- `charsStartWith l p` : the character list `p` is an initial segment of
`l` (helper for Python's substring test `sub in s`). -/
def charsStartWith : List Char → List Char → Bool
  | _, [] => true
  | [], _ :: _ => false
  | c :: cs, d :: ds => c == d && charsStartWith cs ds

/-- `charsContain l sub` : `sub` occurs contiguously inside `l`. -/
def charsContain : List Char → List Char → Bool
  | [], sub => charsStartWith [] sub
  | c :: cs, sub => charsStartWith (c :: cs) sub || charsContain cs sub

/-- Python's `sub in s` on strings. -/
def strContains (s sub : String) : Bool :=
  charsContain s.toList sub.toList

/-- What the generic `except Exception` handler of `_query_chatbot`
(lines 158-177) does with a failure, beyond logging:
`sleepOneSecond` = `time.sleep(1)` then retry;
`killCookie` = `chatbot.kill_cookie_file()` then retry;
`countError` = `error_count += 1` then retry. -/
inductive FailAction where
  | sleepOneSecond
  | killCookie
  | countError
deriving DecidableEq

/-- The `if/elif` chain of `_query_chatbot` lines 162-175, first match wins.
`isStr` models `type(ex.args[0]) is str`; `a` is `ex.args[0]` when it is a
string. -/
def classifyOther (kind : ChatbotKind) (isStr : Bool) (a : String) : FailAction :=
  if kind = ChatbotKind.openai ∧ isStr = true ∧ strContains a "Rate limit reached" = true then
    .sleepOneSecond
  else if kind = ChatbotKind.huggingface ∧ isStr = true ∧ strContains a "Model is overloaded" = true then
    .sleepOneSecond
  else if kind = ChatbotKind.gemini ∧ isStr = true ∧ strContains a "SNlM0e value not found" = true then
    .killCookie
  else if kind = ChatbotKind.copilot ∧ isStr = true ∧
      (strContains a "CaptchaChallenge" = true ∨ strContains a "Authentication failed" = true) then
    .killCookie
  else
    .countError

/-- The exception taxonomy of `_query_chatbot`'s `except` clauses:
`asyncio.TimeoutError` (line 148), `RuntimeError` (line 153), and any other
`Exception` (line 158) carrying `ex.args[0]`. -/
inductive PyError where
  | timeoutError
  | runtimeError
  | otherError (isStr : Bool) (arg0 : String)
deriving DecidableEq

/-- The result of one `chatbot.query(prompt)` attempt, as seen by the worker
loop: a response (with the `time.time()` timestamp taken in the same record
literal) or a raised exception. -/
inductive Outcome where
  | ok (ts : Nat) (resp : String)
  | err (e : PyError)
deriving DecidableEq

def Outcome.isOk : Outcome → Bool
  | .ok _ _ => true
  | .err _ => false

/-- `cookies.py:78` — `self.cookie_files[1:] + self.cookie_files[:1]`, guarded
by `if self.cookie_files and len(self.cookie_files) > 1` (a `None` list is
modelled as `[]`, which the guard also rejects). -/
def rotateFiles (l : List String) : List String :=
  if 1 < l.length then l.drop 1 ++ l.take 1 else l

/-- `cookies.py:84` — `self.cookie_files[1:]` under the same guard; `none`
models the `Exception("Cannot kill the last cookie file.")` raised otherwise. -/
def killFiles (l : List String) : Option (List String) :=
  if 1 < l.length then some (l.drop 1) else none

/-- The two `CookieManager` fields that `rotate_cookie_file` and
`kill_cookie_file` touch (`cookies.py`): the ordered credential list and the
current credential (`current_cookie_file`, always re-set to the new head). -/
structure CookieManager where
  cookieFiles : List String
  currentCookieFile : Option String
deriving DecidableEq

/-- `CookieManager.rotate_cookie_file` (`cookies.py:75-79`). -/
def rotateCookieFile (m : CookieManager) : CookieManager :=
  if 1 < m.cookieFiles.length then
    let fs := m.cookieFiles.drop 1 ++ m.cookieFiles.take 1
    { cookieFiles := fs, currentCookieFile := fs.head? }
  else m

/-- `CookieManager.kill_cookie_file` (`cookies.py:81-87`); `Except.error`
carries the message of the exception raised when at most one credential
remains (the manager is left untouched: the code raises before any
mutation). -/
def killCookieFile (m : CookieManager) : Except String CookieManager :=
  if 1 < m.cookieFiles.length then
    let fs := m.cookieFiles.drop 1
    Except.ok { cookieFiles := fs, currentCookieFile := fs.head? }
  else
    Except.error "Cannot kill the last cookie file."

/-- The mutable state of one iteration of the `while` loop of
`_query_chatbot` (lines 118-177): the success counter `run`, the consecutive
unhandled-error counter `error_count`, the in-memory `temp_results`, and the
chatbot's cookie-file list (mutated by the `rotate_cookie_file()` call at the
start of `Gemini.query`/`Copilot.query` and by `kill_cookie_file()` in the
error handler). -/
structure IterState where
  run : Nat
  errorCount : Nat
  temp : List ResultRecord
  cookies : List String
deriving DecidableEq

/-- Outcome of one loop iteration: `next s slept1` continues the loop
(`slept1` records whether `time.sleep(1)` was executed, i.e. the rate-limit
branch fired); `abort s` models `kill_cookie_file()` raising out of the
worker (`_query_chatbot` has no handler around lines 169/171, so the
exception terminates the worker). -/
inductive IterResult where
  | next (s : IterState) (slept1 : Bool)
  | abort (s : IterState)
deriving DecidableEq

def IterResult.runOut : IterResult → Nat
  | .next s _ => s.run
  | .abort s => s.run

def IterResult.errorCountOut : IterResult → Nat
  | .next s _ => s.errorCount
  | .abort s => s.errorCount

def IterResult.tempOut : IterResult → List ResultRecord
  | .next s _ => s.temp
  | .abort s => s.temp

def IterResult.cookiesOut : IterResult → List String
  | .next s _ => s.cookies
  | .abort s => s.cookies

def IterResult.sleptOneSecond : IterResult → Bool
  | .next _ b => b
  | .abort _ => false

def IterResult.isAbort : IterResult → Bool
  | .next _ _ => false
  | .abort _ => true

/-- The record appended at `multichatbot.py:131-137` on a successful query. -/
def mkRecord (cb : Chatbot) (prompt : String) (ts : Nat) (resp : String) : ResultRecord :=
  { timestamp := ts, chatbot := cb.name, prompt := prompt,
    temperature := cb.temperatureStr, response := resp }

/-- One iteration of the `try/except` body of `_query_chatbot`
(lines 119-177), given the outcome of the `chatbot.query(prompt)` attempt.
The credential rotation performed at the start of `Gemini.query` and
`Copilot.query` (`chatbot.py:81,107`) happens before either outcome, so it is
applied first for unofficial chatbots.  On success (lines 131-146) the record
is appended, `run` incremented and `error_count` reset; on
`asyncio.TimeoutError`/`RuntimeError` (148-156) `error_count` is incremented;
otherwise the branch chosen by `classifyOther` fires (158-177).  The
time-only effects (`time.sleep`, logging, progress bar, writing
`temp_results` to the checkpoint file — which always holds exactly
`temp_results` afterwards) change no loop variable. -/
def handleOutcome (cb : Chatbot) (prompt : String) (o : Outcome) (s : IterState) : IterResult :=
  let cookies := if cb.kind.isUnofficial then rotateFiles s.cookies else s.cookies
  match o with
  | .ok ts resp =>
      .next { run := s.run + 1, errorCount := 0,
              temp := s.temp ++ [mkRecord cb prompt ts resp], cookies := cookies } false
  | .err .timeoutError =>
      .next { s with errorCount := s.errorCount + 1, cookies := cookies } false
  | .err .runtimeError =>
      .next { s with errorCount := s.errorCount + 1, cookies := cookies } false
  | .err (.otherError isStr a) =>
      match classifyOther cb.kind isStr a with
      | .sleepOneSecond => .next { s with cookies := cookies } true
      | .killCookie =>
          match killFiles cookies with
          | some fs => .next { s with cookies := fs } false
          | none => .abort { s with cookies := cookies }
      | .countError => .next { s with errorCount := s.errorCount + 1, cookies := cookies } false

/-- `sum(1 for result in temp_results if result["prompt"] == prompt)`
(`multichatbot.py:103,113` — the checkpoint count filters on prompt only,
the checkpoint file being per-adapter already). -/
def countTemp (temp : List ResultRecord) (prompt : String) : Nat :=
  (temp.filter fun r => decide (r.prompt = prompt)).length

/-- `sum(1 for result in results if result["prompt"] == prompt and
result["chatbot"] == chatbot.name)` (`multichatbot.py:104,113`). -/
def countOut (results : List ResultRecord) (name prompt : String) : Nat :=
  (results.filter fun r => decide (r.prompt = prompt ∧ r.chatbot = name)).length

/-- `prompt_runs` (`multichatbot.py:113`): the already-satisfied run count,
each source capped at `runs`. -/
def promptRuns (runs : Nat) (name : String) (temp results : List ResultRecord)
    (prompt : String) : Nat :=
  min (countTemp temp prompt) runs + min (countOut results name prompt) runs

/-- Result of the per-prompt `while` loop: final loop variables, the unused
tail of the outcome oracle, whether the loop was terminated by a
`kill_cookie_file` exception (`aborted`), and whether the loop exited through
its own condition `run < runs - prompt_runs` becoming false (`completed`;
`completed = false ∧ aborted = false` models the oracle running dry, i.e. an
external interruption of the worker). -/
structure LoopResult where
  temp : List ResultRecord
  cookies : List String
  errorCount : Nat
  run : Nat
  leftover : List Outcome
  aborted : Bool
  completed : Bool
deriving DecidableEq

/-- The `while run < self.runs - prompt_runs` loop of `_query_chatbot`
(lines 116-177), driven by an oracle of query outcomes.  `target` is
`runs - prompt_runs`, fixed before the loop as in the source. -/
def promptLoopGo (cb : Chatbot) (prompt : String) (target : Nat) :
    List Outcome → IterState → LoopResult
  | [], s =>
      if s.run < target then
        { temp := s.temp, cookies := s.cookies, errorCount := s.errorCount, run := s.run,
          leftover := [], aborted := false, completed := false }
      else
        { temp := s.temp, cookies := s.cookies, errorCount := s.errorCount, run := s.run,
          leftover := [], aborted := false, completed := true }
  | o :: rest, s =>
      if s.run < target then
        match handleOutcome cb prompt o s with
        | .abort s' =>
            { temp := s'.temp, cookies := s'.cookies, errorCount := s'.errorCount,
              run := s'.run, leftover := rest, aborted := true, completed := false }
        | .next s' _ => promptLoopGo cb prompt target rest s'
      else
        { temp := s.temp, cookies := s.cookies, errorCount := s.errorCount, run := s.run,
          leftover := o :: rest, aborted := false, completed := true }

/-- Result of the whole worker (`for prompt in self.prompts` loop,
lines 111-177). -/
structure WResult where
  temp : List ResultRecord
  cookies : List String
  leftover : List Outcome
  aborted : Bool
deriving DecidableEq

/-- The `for prompt in self.prompts` loop of `_query_chatbot`
(lines 111-177): for each prompt, `prompt_runs` is recomputed from the
current in-memory `temp_results` (line 113) and the per-prompt loop runs with
`run = 0`, `error_count = 0` (lines 116-117); an exception escaping the loop
(`aborted`) terminates the whole worker, skipping the remaining prompts. -/
def workerGo (cb : Chatbot) (runs : Nat) (results : List ResultRecord) :
    List String → List Outcome → List ResultRecord → List String → WResult
  | [], outcomes, temp, cookies =>
      { temp := temp, cookies := cookies, leftover := outcomes, aborted := false }
  | p :: ps, outcomes, temp, cookies =>
      let target := runs - promptRuns runs cb.name temp results p
      let r := promptLoopGo cb p target outcomes
        { run := 0, errorCount := 0, temp := temp, cookies := cookies }
      if r.aborted then
        { temp := r.temp, cookies := r.cookies, leftover := r.leftover, aborted := true }
      else
        workerGo cb runs results ps r.leftover r.temp r.cookies

/-- `min(error_count - self.max_errors + 1, 10)` (`multichatbot.py:126`):
the multiplier applied to the random base interval. -/
def coolDownFactor (maxErrors errorCount : Nat) : Nat :=
  min (errorCount - maxErrors + 1) 10

/-- The cool-down imposed at `multichatbot.py:125-128` before a query
attempt: when `error_count >= self.max_errors`, sleep
`min(error_count - max_errors + 1, 10) * random.uniform(55, 65)` seconds
(`u` is the value drawn by `random.uniform(55, 65)`); otherwise no sleep. -/
def coolDownWait (maxErrors errorCount : Nat) (u : ℚ) : ℚ :=
  if maxErrors ≤ errorCount then (coolDownFactor maxErrors errorCount : ℚ) * u else 0

/-- `os.path.join(self.temp_dir, chatbot.name.lower() + ".json")`
(`multichatbot.py:70`), keyed here by the lowered name (the directory is
common to all checkpoints); `str.lower()` is modelled character-wise. -/
def tempKey (name : String) : String := String.mk (name.data.map Char.toLower)

/-- The filesystem state the merge phase of `MultiChatbot.query`
(lines 44-60) reads and writes: the output file's record list (`none` when
the file does not exist) and the per-adapter checkpoint files, as an
association list from checkpoint key to content. -/
structure MergeFS where
  output : Option (List ResultRecord)
  temps : List (String × List ResultRecord)
deriving DecidableEq

/-- `os.path.exists` + `json.load` for a checkpoint file. -/
def lookupTemp : List (String × List ResultRecord) → String → Option (List ResultRecord)
  | [], _ => none
  | e :: rest, k => if e.1 = k then some e.2 else lookupTemp rest k

/-- `os.remove(temp_filename)` (`multichatbot.py:56`). -/
def removeTemp : List (String × List ResultRecord) → String → List (String × List ResultRecord)
  | [], _ => []
  | e :: rest, k => if e.1 = k then removeTemp rest k else e :: removeTemp rest k

/-- The `for chatbot in self.chatbots` merge loop (`multichatbot.py:51-56`):
if the chatbot's checkpoint exists, `results += json.load(f)` then
`os.remove`. -/
def mergeGo : List String → List ResultRecord → List (String × List ResultRecord) →
    List ResultRecord × List (String × List ResultRecord)
  | [], acc, temps => (acc, temps)
  | n :: ns, acc, temps =>
      match lookupTemp temps (tempKey n) with
      | some recs => mergeGo ns (acc ++ recs) (removeTemp temps (tempKey n))
      | none => mergeGo ns acc temps

/-- The merge phase of `MultiChatbot.query` (lines 44-60): load the output
file if it exists (else start from `[]`), fold in each adapter's checkpoint
in adapter order deleting it, then write the result back to the output
file. -/
def mergeOutputs (names : List String) (fs : MergeFS) : MergeFS :=
  let r := mergeGo names (fs.output.getD []) fs.temps
  { output := some r.1, temps := r.2 }

/-- Occurrence count of one record in a file's record list. -/
def countRec (l : List ResultRecord) (x : ResultRecord) : Nat :=
  (l.filter fun y => decide (y = x)).length

/-- The on-disk state relevant to one checkpoint rewrite: the checkpoint
file's content and the content of a hypothetical sibling temporary file
(used only by the spec's atomic-replace scheme). -/
structure DiskState where
  checkpointFile : Option (List ResultRecord)
  tmpFile : Option (List ResultRecord)
deriving DecidableEq

/-- Primitive filesystem effects a rewrite decomposes into.  `open(f, "w")`
truncates the file to empty before anything is written
(`truncateCheckpoint`); the subsequent `f.write(...)` installs the full new
content (`writeCheckpoint`).  `writeTmp`/`renameTmpOverCheckpoint` are the
steps of the spec's write-to-temp-then-rename scheme. -/
inductive SaveStep where
  | truncateCheckpoint
  | writeCheckpoint (data : List ResultRecord)
  | writeTmp (data : List ResultRecord)
  | renameTmpOverCheckpoint
deriving DecidableEq

def applySaveStep : DiskState → SaveStep → DiskState
  | d, .truncateCheckpoint => { d with checkpointFile := some [] }
  | d, .writeCheckpoint data => { d with checkpointFile := some data }
  | d, .writeTmp data => { d with tmpFile := some data }
  | d, .renameTmpOverCheckpoint => { checkpointFile := d.tmpFile, tmpFile := none }

/-- The checkpoint rewrite of `_query_chatbot` lines 139-141:
`with open(temp_filename, "w") as f: f.write(json.dumps(temp_results))` —
an in-place truncate followed by a write of the full new content. -/
def openWriteSave (data : List ResultRecord) : List SaveStep :=
  [.truncateCheckpoint, .writeCheckpoint data]

/-- Modelled from the spec: the "write-to-temp-then-rename, or equivalent
atomic replace" rewrite that §4.2 requires of `append`; no such code exists
in `src` (the source rewrites the checkpoint in place). -/
def atomicReplaceSave (data : List ResultRecord) : List SaveStep :=
  [.writeTmp data, .renameTmpOverCheckpoint]

def runSave (d : DiskState) (steps : List SaveStep) : DiskState :=
  steps.foldl applySaveStep d

/-- Every state reachable by killing the process after any number of
completed steps of the rewrite (including before the first and after the
last). -/
def crashStates (d : DiskState) (steps : List SaveStep) : List DiskState :=
  (List.range (steps.length + 1)).map fun k => runSave d (steps.take k)

/-- Crash safety of a rewrite: at every kill point the checkpoint file holds
either the prior content or the new content in full. -/
def preservesPriorOrNew (d : DiskState) (steps : List SaveStep)
    (old new : List ResultRecord) : Prop :=
  ∀ s ∈ crashStates d steps, s.checkpointFile = some old ∨ s.checkpointFile = some new

/-- A concrete `OpenAI(...)` chatbot with the constructor defaults of
`chatbot.py:29` (`name="GPT-3.5"`, `temperature=1.0`). -/
def gptBot : Chatbot :=
  { name := "GPT-3.5", kind := ChatbotKind.openai, temperatureStr := "1.0" }

/-- A concrete `Gemini(...)` chatbot with the constructor defaults of
`chatbot.py:96` (`name="Gemini"`, `temperature=None`). -/
def geminiBot : Chatbot :=
  { name := "Gemini", kind := ChatbotKind.gemini, temperatureStr := "None" }

/-- A sample checkpoint record. -/
def sampleRec0 : ResultRecord :=
  { timestamp := 0, chatbot := "GPT-3.5", prompt := "p", temperature := "1.0", response := "a" }

/-- A second sample checkpoint record. -/
def sampleRec1 : ResultRecord :=
  { timestamp := 1, chatbot := "GPT-3.5", prompt := "p", temperature := "1.0", response := "b" }

/-! ## Helper lemmas about the worker loop -/

theorem countTemp_append (l l' : List ResultRecord) (p : String) :
    countTemp (l ++ l') p = countTemp l p + countTemp l' p := by
  simp [countTemp, List.filter_append]

theorem countTemp_of_all_eq {l : List ResultRecord} {p : String}
    (h : ∀ x ∈ l, x.prompt = p) : countTemp l p = l.length := by
  unfold countTemp
  rw [List.filter_eq_self.mpr]
  intro a ha
  simp [h a ha]

theorem countTemp_of_all_ne {l : List ResultRecord} {p q : String}
    (h : ∀ x ∈ l, x.prompt = p) (hpq : p ≠ q) : countTemp l q = 0 := by
  unfold countTemp
  rw [List.filter_eq_nil_iff.mpr, List.length_nil]
  intro a ha
  simp [h a ha, hpq]

theorem handleOutcome_cases (cb : Chatbot) (prompt : String) (o : Outcome) (s : IterState) :
    (∃ s', handleOutcome cb prompt o s = IterResult.abort s' ∧
      s'.run = s.run ∧ s'.temp = s.temp) ∨
    (∃ s' b, handleOutcome cb prompt o s = IterResult.next s' b ∧
      ((s'.run = s.run ∧ s'.temp = s.temp) ∨
       (∃ ts resp, o = Outcome.ok ts resp ∧ s'.run = s.run + 1 ∧
         s'.temp = s.temp ++ [mkRecord cb prompt ts resp]))) := by
  rcases o with ⟨ts, resp⟩ | e
  · exact Or.inr ⟨_, _, rfl, Or.inr ⟨ts, resp, rfl, rfl, rfl⟩⟩
  · rcases e with _ | _ | ⟨isStr, a⟩
    · exact Or.inr ⟨_, _, rfl, Or.inl ⟨rfl, rfl⟩⟩
    · exact Or.inr ⟨_, _, rfl, Or.inl ⟨rfl, rfl⟩⟩
    · unfold handleOutcome
      rcases hc : classifyOther cb.kind isStr a with _ | _ | _
      · simp only [hc]
        exact Or.inr ⟨_, _, rfl, Or.inl ⟨rfl, rfl⟩⟩
      · simp only [hc]
        rcases hk : killFiles (if cb.kind.isUnofficial then rotateFiles s.cookies else s.cookies)
            with _ | fs
        · simp only [hk]
          exact Or.inl ⟨_, rfl, rfl, rfl⟩
        · simp only [hk]
          exact Or.inr ⟨_, _, rfl, Or.inl ⟨rfl, rfl⟩⟩
      · simp only [hc]
        exact Or.inr ⟨_, _, rfl, Or.inl ⟨rfl, rfl⟩⟩

theorem handleOutcome_ok (cb : Chatbot) (prompt : String) (ts : Nat) (resp : String)
    (s : IterState) :
    handleOutcome cb prompt (Outcome.ok ts resp) s =
      IterResult.next
        { run := s.run + 1, errorCount := 0,
          temp := s.temp ++ [mkRecord cb prompt ts resp],
          cookies := if cb.kind.isUnofficial then rotateFiles s.cookies else s.cookies }
        false := rfl

/-- Structural invariant of the per-prompt loop: the checkpoint only grows,
each appended record carries the loop's prompt and the adapter's name,
exactly one record is appended per unit of `run` gained, `run` never passes
`target` when it starts at or below it, a start at or past `target` performs
no work, and a `completed` exit means `run` reached `target`. -/
theorem promptLoopGo_spec (cb : Chatbot) (prompt : String) (target : Nat) :
    ∀ (outcomes : List Outcome) (s : IterState),
      ∃ ext,
        (promptLoopGo cb prompt target outcomes s).temp = s.temp ++ ext ∧
        (promptLoopGo cb prompt target outcomes s).run = s.run + ext.length ∧
        (∀ x ∈ ext, x.prompt = prompt ∧ x.chatbot = cb.name) ∧
        (s.run ≤ target → (promptLoopGo cb prompt target outcomes s).run ≤ target) ∧
        (target ≤ s.run → (promptLoopGo cb prompt target outcomes s).run = s.run) ∧
        ((promptLoopGo cb prompt target outcomes s).completed = true →
          target ≤ (promptLoopGo cb prompt target outcomes s).run) := by
  intro outcomes
  induction outcomes with
  | nil =>
      intro s
      by_cases h : s.run < target
      · refine ⟨[], ?_⟩
        simp [promptLoopGo, h]
      · refine ⟨[], ?_⟩
        simp [promptLoopGo, h]
        omega
  | cons o rest ih =>
      intro s
      by_cases h : s.run < target
      · rcases handleOutcome_cases cb prompt o s with
          ⟨s', habort, hrun, htemp⟩ | ⟨s', b, hnext, hdelta⟩
        · refine ⟨[], ?_⟩
          simp only [promptLoopGo, if_pos h, habort]
          simp [htemp, hrun]
        · obtain ⟨ext, ihA, ihB, ihC, ihD, ihE, ihF⟩ := ih s'
          rcases hdelta with ⟨hrun, htemp⟩ | ⟨ts, resp, _, hrun, htemp⟩
          · refine ⟨ext, ?_, ?_, ihC, ?_, ?_, ?_⟩ <;>
              (try simp only [promptLoopGo, if_pos h, hnext])
            · rw [ihA, htemp]
            · omega
            · intro hle
              have := ihD (by omega)
              omega
            · intro hge
              omega
            · intro hc
              have := ihF hc
              omega
          · refine ⟨mkRecord cb prompt ts resp :: ext, ?_, ?_, ?_, ?_, ?_, ?_⟩ <;>
              (try simp only [promptLoopGo, if_pos h, hnext])
            · rw [ihA, htemp]
              simp
            · simp
              omega
            · intro x hx
              rcases List.mem_cons.mp hx with hx | hx
              · subst hx
                exact ⟨rfl, rfl⟩
              · exact ihC x hx
            · intro hle
              have := ihD (by omega)
              omega
            · intro hge
              omega
            · intro hc
              have := ihF hc
              omega
      · refine ⟨[], ?_⟩
        simp [promptLoopGo, h]
        omega

/-- When every oracle outcome is a success and the oracle is long enough,
the per-prompt loop exits through its own condition, without aborting. -/
theorem promptLoopGo_allOk (cb : Chatbot) (prompt : String) (target : Nat) :
    ∀ (outcomes : List Outcome) (s : IterState),
      (∀ o ∈ outcomes, o.isOk = true) → target ≤ s.run + outcomes.length →
      (promptLoopGo cb prompt target outcomes s).completed = true ∧
      (promptLoopGo cb prompt target outcomes s).aborted = false := by
  intro outcomes
  induction outcomes with
  | nil =>
      intro s _ hlen
      have : ¬ s.run < target := by simp at hlen; omega
      simp [promptLoopGo, this]
  | cons o rest ih =>
      intro s hok hlen
      by_cases h : s.run < target
      · have hko : o.isOk = true := hok o (by simp)
        rcases o with ⟨ts, resp⟩ | e
        · simp only [promptLoopGo, if_pos h, handleOutcome_ok]
          apply ih
          · intro o' ho'
            exact hok o' (by simp [ho'])
          · simp at hlen ⊢
            omega
        · simp [Outcome.isOk] at hko
      · simp [promptLoopGo, h]

/-- Unfolding equation for the worker on a non-empty prompt list. -/
theorem workerGo_cons (cb : Chatbot) (runs : Nat) (results : List ResultRecord)
    (q : String) (ps : List String) (outcomes : List Outcome)
    (temp : List ResultRecord) (cookies : List String) :
    workerGo cb runs results (q :: ps) outcomes temp cookies =
      (let r := promptLoopGo cb q (runs - promptRuns runs cb.name temp results q) outcomes
        { run := 0, errorCount := 0, temp := temp, cookies := cookies }
       if r.aborted then
         { temp := r.temp, cookies := r.cookies, leftover := r.leftover, aborted := true }
       else workerGo cb runs results ps r.leftover r.temp r.cookies) := rfl

/-- Checkpoint growth of the whole worker, tracked for one fixed prompt text
`p`: the count of `p`-records never decreases, never grows past the
output-deficit ceiling `runs - min (countOut ...) runs`, and does not grow at
all once that ceiling is already met.  This holds for every prompt list,
duplicates included, because the worker recomputes `prompt_runs` from the
current in-memory checkpoint at each list position. -/
theorem workerGo_count (cb : Chatbot) (runs : Nat) (results : List ResultRecord) (p : String) :
    ∀ (prompts : List String) (outcomes : List Outcome)
      (temp : List ResultRecord) (cookies : List String),
      countTemp temp p ≤ countTemp (workerGo cb runs results prompts outcomes temp cookies).temp p ∧
      (countTemp temp p ≤ runs - min (countOut results cb.name p) runs →
        countTemp (workerGo cb runs results prompts outcomes temp cookies).temp p ≤
          runs - min (countOut results cb.name p) runs) ∧
      (runs - min (countOut results cb.name p) runs ≤ countTemp temp p →
        countTemp (workerGo cb runs results prompts outcomes temp cookies).temp p =
          countTemp temp p) := by
  intro prompts
  induction prompts with
  | nil =>
      intro outcomes temp cookies
      exact ⟨le_rfl, fun h => h, fun _ => rfl⟩
  | cons q ps ih =>
      intro outcomes temp cookies
      rw [workerGo_cons]
      obtain ⟨ext, hA, hB, hC, hD, _, _⟩ :=
        promptLoopGo_spec cb q (runs - promptRuns runs cb.name temp results q) outcomes
          { run := 0, errorCount := 0, temp := temp, cookies := cookies }
      set r := promptLoopGo cb q (runs - promptRuns runs cb.name temp results q) outcomes
        { run := 0, errorCount := 0, temp := temp, cookies := cookies } with hrdef
      have hextlen : ext.length ≤ runs - promptRuns runs cb.name temp results q := by
        have := hD (Nat.zero_le _)
        omega
      have hcount : countTemp r.temp p = countTemp temp p + countTemp ext p := by
        rw [hA, countTemp_append]
      have hkey : countTemp temp p ≤ countTemp r.temp p ∧
          (countTemp temp p ≤ runs - min (countOut results cb.name p) runs →
            countTemp r.temp p ≤ runs - min (countOut results cb.name p) runs) ∧
          (runs - min (countOut results cb.name p) runs ≤ countTemp temp p →
            countTemp r.temp p = countTemp temp p) := by
        by_cases hq : q = p
        · subst hq
          have hce : countTemp ext q = ext.length :=
            countTemp_of_all_eq (fun x hx => (hC x hx).1)
          have htarget : runs - promptRuns runs cb.name temp results q =
              runs - (min (countTemp temp q) runs + min (countOut results cb.name q) runs) := by
            rw [promptRuns]
          rcases Nat.le_total (countTemp temp q) runs with hle | hle
          · rw [Nat.min_eq_left hle] at htarget
            refine ⟨by omega, ?_, ?_⟩ <;> intro hcase <;> omega
          · rw [Nat.min_eq_right hle] at htarget
            refine ⟨by omega, ?_, ?_⟩ <;> intro hcase <;> omega
        · have hce : countTemp ext p = 0 :=
            countTemp_of_all_ne (fun x hx => (hC x hx).1) hq
          exact ⟨by omega, by omega, by omega⟩
      by_cases hab : r.aborted = true
      · rw [if_pos hab]
        exact hkey
      · rw [if_neg hab]
        obtain ⟨ih1, ih2, ih3⟩ := ih r.leftover r.temp r.cookies
        refine ⟨le_trans hkey.1 ih1, fun hcase => ih2 (hkey.2.1 hcase), fun hcase => ?_⟩
        rw [ih3 (le_trans hcase hkey.1), hkey.2.2 hcase]

/-! ## Claim theorems -/

/-- **C5** — Escalating cool-down: whenever the consecutive-failure counter
has reached the configured maximum, the worker waits
`min(excess + 1, 10) × u` seconds, `excess = counter − maximum`, with `u`
the value drawn by `random.uniform(55, 65)` (so the wait lies in
`[factor·55, factor·65)`); no cool-down is imposed while the counter is
below the maximum. -/
theorem escalating_cooldown_formula (maxErrors errorCount : Nat) (u : ℚ)
    (h55 : (55 : ℚ) ≤ u) (h65 : u < 65) :
    (maxErrors ≤ errorCount →
      coolDownWait maxErrors errorCount u =
        ((min (errorCount - maxErrors + 1) 10 : Nat) : ℚ) * u ∧
      ((min (errorCount - maxErrors + 1) 10 : Nat) : ℚ) * 55 ≤
        coolDownWait maxErrors errorCount u ∧
      coolDownWait maxErrors errorCount u <
        ((min (errorCount - maxErrors + 1) 10 : Nat) : ℚ) * 65) ∧
    (errorCount < maxErrors → coolDownWait maxErrors errorCount u = 0) := by
  constructor
  · intro hge
    have hfac : coolDownWait maxErrors errorCount u =
        ((min (errorCount - maxErrors + 1) 10 : Nat) : ℚ) * u := by
      rw [coolDownWait, if_pos hge, coolDownFactor]
    have hone : 1 ≤ min (errorCount - maxErrors + 1) 10 :=
      Nat.le_min.mpr ⟨by omega, by omega⟩
    have hpos : (0 : ℚ) < ((min (errorCount - maxErrors + 1) 10 : Nat) : ℚ) := by
      exact_mod_cast Nat.lt_of_lt_of_le Nat.zero_lt_one hone
    refine ⟨hfac, ?_, ?_⟩
    · rw [hfac]
      exact mul_le_mul_of_nonneg_left h55 hpos.le
    · rw [hfac]
      exact mul_lt_mul_of_pos_left h65 hpos
  · intro hlt
    rw [coolDownWait, if_neg (by omega)]

theorem escalating_cooldown_formula_witness :
    coolDownWait 2 5 60 = ((min (5 - 2 + 1) 10 : Nat) : ℚ) * 60 ∧
    coolDownWait 7 3 60 = 0 :=
  ⟨((escalating_cooldown_formula 2 5 60 (by norm_num) (by norm_num)).1 (by norm_num)).1,
   (escalating_cooldown_formula 7 3 60 (by norm_num) (by norm_num)).2 (by norm_num)⟩

/-- **C6** — Escalation bound: counting `e` as the number of consecutive
unclassified failures at or past the threshold (so the counter stands at
`maxErrors - 1 + e`, matching §4.3's `excess = counter − maximum` via
`e = excess + 1`), the cool-down before the next attempt is
`min(e, 10) × u` with `u` drawn from `[55, 65)`: `0` at `e = 0` (counter
still below the maximum, no cool-down), `9 × u` at `e = 9`, and capped at
`10 × u` for `e = 15`. -/
theorem escalation_bound (maxErrors e : Nat) (u : ℚ) (h : 1 ≤ maxErrors) :
    coolDownWait maxErrors (maxErrors - 1 + e) u = ((min e 10 : Nat) : ℚ) * u ∧
    coolDownWait maxErrors (maxErrors - 1 + 0) u = 0 ∧
    coolDownWait maxErrors (maxErrors - 1 + 9) u = (9 : ℚ) * u ∧
    coolDownWait maxErrors (maxErrors - 1 + 15) u = (10 : ℚ) * u := by
  have hgen : ∀ k : Nat,
      coolDownWait maxErrors (maxErrors - 1 + k) u = ((min k 10 : Nat) : ℚ) * u := by
    intro k
    rcases Nat.eq_zero_or_pos k with hk | hk
    · subst hk
      rw [coolDownWait, if_neg (by omega)]
      simp
    · rw [coolDownWait, if_pos (by omega), coolDownFactor]
      have harith : maxErrors - 1 + k - maxErrors + 1 = k := by omega
      rw [harith]
  refine ⟨hgen e, ?_, ?_, ?_⟩
  · rw [hgen 0]
    simp
  · rw [hgen 9]
    norm_num
  · rw [hgen 15]
    norm_num

theorem escalation_bound_witness :
    coolDownWait 5 (5 - 1 + 15) 60 = ((min 15 10 : Nat) : ℚ) * 60 :=
  (escalation_bound 5 15 60 (by norm_num)).1

/-- **C3** (counterexample) — The claim says a rate-limit failure resets the
consecutive-failure counter to zero; on the code, an `OpenAI` chatbot hitting
`"Rate limit reached"` with `error_count = 3` keeps `error_count = 3`. -/
theorem rate_limit_counter_not_reset :
    (handleOutcome gptBot "p"
        (Outcome.err (PyError.otherError true "Rate limit reached for requests"))
        { run := 0, errorCount := 3, temp := [], cookies := [] }).errorCountOut ≠ 0 := by
  decide

/-- **C3** (amended) — When a query fails with a rate-limit error (the
`"Rate limit reached"` / `"Model is overloaded"` branch), the worker pauses
a fixed 1 second (`time.sleep(1)`) and leaves the consecutive-failure
counter unchanged before retrying; the run counter is not changed, no
record is appended, and the worker does not abort. -/
theorem rate_limit_pause_keeps_counter (cb : Chatbot) (prompt : String) (isStr : Bool)
    (a : String) (s : IterState)
    (h : classifyOther cb.kind isStr a = FailAction.sleepOneSecond) :
    (handleOutcome cb prompt (Outcome.err (PyError.otherError isStr a)) s).sleptOneSecond
        = true ∧
    (handleOutcome cb prompt (Outcome.err (PyError.otherError isStr a)) s).errorCountOut
        = s.errorCount ∧
    (handleOutcome cb prompt (Outcome.err (PyError.otherError isStr a)) s).runOut = s.run ∧
    (handleOutcome cb prompt (Outcome.err (PyError.otherError isStr a)) s).tempOut = s.temp ∧
    (handleOutcome cb prompt (Outcome.err (PyError.otherError isStr a)) s).isAbort = false := by
  simp [handleOutcome, h, IterResult.sleptOneSecond, IterResult.errorCountOut,
    IterResult.runOut, IterResult.tempOut, IterResult.isAbort]

theorem rate_limit_pause_keeps_counter_witness :
    (handleOutcome gptBot "p"
        (Outcome.err (PyError.otherError true "Rate limit reached for requests"))
        { run := 1, errorCount := 3, temp := [], cookies := [] }).sleptOneSecond = true ∧
    (handleOutcome gptBot "p"
        (Outcome.err (PyError.otherError true "Rate limit reached for requests"))
        { run := 1, errorCount := 3, temp := [], cookies := [] }).errorCountOut = 3 ∧
    (handleOutcome gptBot "p"
        (Outcome.err (PyError.otherError true "Rate limit reached for requests"))
        { run := 1, errorCount := 3, temp := [], cookies := [] }).runOut = 1 ∧
    (handleOutcome gptBot "p"
        (Outcome.err (PyError.otherError true "Rate limit reached for requests"))
        { run := 1, errorCount := 3, temp := [], cookies := [] }).tempOut = [] ∧
    (handleOutcome gptBot "p"
        (Outcome.err (PyError.otherError true "Rate limit reached for requests"))
        { run := 1, errorCount := 3, temp := [], cookies := [] }).isAbort = false :=
  rate_limit_pause_keeps_counter gptBot "p" true "Rate limit reached for requests"
    { run := 1, errorCount := 3, temp := [], cookies := [] } (by decide)

/-- **C8** — Consecutive-failure counter dynamics: `asyncio.TimeoutError`
(Timeout) and `RuntimeError` (Transient) each increment `error_count` by one
with an immediate retry (no 1-second pause, no abort, no run-count change);
an unclassified failure (the final `else`) increments it by one; every
successful query resets it to zero. -/
theorem failure_counter_dynamics (cb : Chatbot) (prompt : String) (s : IterState)
    (ts : Nat) (resp : String) (isStr : Bool) (a : String)
    (hunc : classifyOther cb.kind isStr a = FailAction.countError) :
    ((handleOutcome cb prompt (Outcome.err PyError.timeoutError) s).errorCountOut
        = s.errorCount + 1 ∧
     (handleOutcome cb prompt (Outcome.err PyError.timeoutError) s).sleptOneSecond = false ∧
     (handleOutcome cb prompt (Outcome.err PyError.timeoutError) s).runOut = s.run ∧
     (handleOutcome cb prompt (Outcome.err PyError.timeoutError) s).isAbort = false) ∧
    ((handleOutcome cb prompt (Outcome.err PyError.runtimeError) s).errorCountOut
        = s.errorCount + 1 ∧
     (handleOutcome cb prompt (Outcome.err PyError.runtimeError) s).sleptOneSecond = false ∧
     (handleOutcome cb prompt (Outcome.err PyError.runtimeError) s).runOut = s.run ∧
     (handleOutcome cb prompt (Outcome.err PyError.runtimeError) s).isAbort = false) ∧
    ((handleOutcome cb prompt (Outcome.err (PyError.otherError isStr a)) s).errorCountOut
        = s.errorCount + 1) ∧
    ((handleOutcome cb prompt (Outcome.ok ts resp) s).errorCountOut = 0) := by
  refine ⟨⟨rfl, rfl, rfl, rfl⟩, ⟨rfl, rfl, rfl, rfl⟩, ?_, rfl⟩
  simp [handleOutcome, hunc, IterResult.errorCountOut]

theorem failure_counter_dynamics_witness :
    ((handleOutcome gptBot "p" (Outcome.err PyError.timeoutError)
        { run := 0, errorCount := 2, temp := [], cookies := [] }).errorCountOut = 3) ∧
    ((handleOutcome gptBot "p" (Outcome.err PyError.runtimeError)
        { run := 0, errorCount := 2, temp := [], cookies := [] }).errorCountOut = 3) ∧
    ((handleOutcome gptBot "p" (Outcome.err (PyError.otherError true "boom"))
        { run := 0, errorCount := 2, temp := [], cookies := [] }).errorCountOut = 3) ∧
    ((handleOutcome gptBot "p" (Outcome.ok 5 "r")
        { run := 0, errorCount := 2, temp := [], cookies := [] }).errorCountOut = 0) := by
  have h := failure_counter_dynamics gptBot "p"
    { run := 0, errorCount := 2, temp := [], cookies := [] } 5 "r" true "boom" (by decide)
  exact ⟨h.1.1, h.2.1.1, h.2.2.1, h.2.2.2⟩

/-- Iterating `rotate_cookie_file` tracks `List.rotate`, provided the
`current_cookie_file = cookie_files[0]` invariant (established by `__init__`
and re-established by every rotate/kill) holds at the start. -/
theorem rotateCookieFile_iterate (m : CookieManager)
    (hcur : m.currentCookieFile = m.cookieFiles.head?) :
    ∀ k : Nat, (rotateCookieFile)^[k] m =
      { cookieFiles := m.cookieFiles.rotate k,
        currentCookieFile := (m.cookieFiles.rotate k).head? } := by
  intro k
  induction k with
  | zero =>
      rcases m with ⟨fs, cur⟩
      simp only [Function.iterate_zero_apply, List.rotate_zero]
      simp only [CookieManager.mk.injEq]
      exact ⟨trivial, hcur⟩
  | succ k ih =>
      rw [Function.iterate_succ_apply', ih]
      by_cases h : 1 < m.cookieFiles.length
      · have hlen : (m.cookieFiles.rotate k).length = m.cookieFiles.length :=
          List.length_rotate _ _
        rw [rotateCookieFile, if_pos (by rw [hlen]; exact h)]
        have h1 : (m.cookieFiles.rotate k).drop 1 ++ (m.cookieFiles.rotate k).take 1 =
            m.cookieFiles.rotate (k + 1) := by
          rw [← List.rotate_eq_drop_append_take (by omega), List.rotate_rotate]
        simp only [h1]
      · have hshort : ∀ n : Nat, m.cookieFiles.rotate n = m.cookieFiles := by
          intro n
          rcases hl : m.cookieFiles with _ | ⟨x, _ | ⟨y, t⟩⟩
          · simp
          · simp [List.rotate_singleton]
          · exfalso
            apply h
            rw [hl]
            simp
        rw [rotateCookieFile, if_neg (by rw [hshort k]; exact h), hshort k, hshort (k + 1)]

/-- **C9** — `rotate_cookie_file` is a cyclic left shift: with more than one
credential it moves the head (the current credential) to the end, makes the
next one current, and permutes (preserves the multiset of) the credentials;
with at most one credential it is a no-op; and, starting from the
`current = head` invariant, `n` rotations (`n` = number of credentials)
restore the original list and current credential. -/
theorem rotate_cyclic_left_shift (m : CookieManager) :
    (1 < m.cookieFiles.length →
      (rotateCookieFile m).cookieFiles = m.cookieFiles.drop 1 ++ m.cookieFiles.take 1 ∧
      (rotateCookieFile m).currentCookieFile = m.cookieFiles[1]? ∧
      List.Perm (rotateCookieFile m).cookieFiles m.cookieFiles) ∧
    (m.cookieFiles.length ≤ 1 → rotateCookieFile m = m) ∧
    (m.currentCookieFile = m.cookieFiles.head? →
      (rotateCookieFile)^[m.cookieFiles.length] m = m) := by
  refine ⟨?_, ?_, ?_⟩
  · intro h
    refine ⟨by rw [rotateCookieFile, if_pos h], ?_, ?_⟩
    · rcases hl : m.cookieFiles with _ | ⟨x, _ | ⟨y, t⟩⟩
      · rw [hl] at h
        simp at h
      · rw [hl] at h
        simp at h
      · rw [rotateCookieFile, if_pos h, hl]
        simp
    · rw [rotateCookieFile, if_pos h]
      have h1 : m.cookieFiles.drop 1 ++ m.cookieFiles.take 1 = m.cookieFiles.rotate 1 :=
        (List.rotate_eq_drop_append_take (by omega)).symm
      simp only [h1]
      exact List.rotate_perm m.cookieFiles 1
  · intro h
    rw [rotateCookieFile, if_neg (by omega)]
  · intro hcur
    rw [rotateCookieFile_iterate m hcur, List.rotate_length]
    rcases m with ⟨fs, cur⟩
    simp only [CookieManager.mk.injEq]
    exact ⟨trivial, hcur.symm⟩

theorem rotate_cyclic_left_shift_witness :
    (rotateCookieFile ⟨["a", "b", "c"], some "a"⟩).cookieFiles = ["b", "c", "a"] ∧
    rotateCookieFile ⟨["x"], some "x"⟩ = ⟨["x"], some "x"⟩ ∧
    (rotateCookieFile)^[3] ⟨["a", "b", "c"], some "a"⟩ = ⟨["a", "b", "c"], some "a"⟩ :=
  ⟨((rotate_cyclic_left_shift ⟨["a", "b", "c"], some "a"⟩).1 (by decide)).1,
   (rotate_cyclic_left_shift ⟨["x"], some "x"⟩).2.1 (by decide),
   (rotate_cyclic_left_shift ⟨["a", "b", "c"], some "a"⟩).2.2 (by decide)⟩

/-- **C7** — Credential exhaustion terminality: `kill_cookie_file` fails
(raising `"Cannot kill the last cookie file."`, with the manager untouched)
iff at most one credential remains; with more than one it removes exactly
the current (head) credential and makes the next one current; and when a
query failure's `kill_cookie_file()` call finds no spare credential, the
resulting exception aborts the per-prompt loop at once (the remaining oracle
is left unconsumed) and the worker stops without visiting the remaining
prompts. -/
theorem credential_exhaustion_terminality :
    (∀ m : CookieManager,
      (∃ e, killCookieFile m = Except.error e) ↔ m.cookieFiles.length ≤ 1) ∧
    (∀ m : CookieManager, m.cookieFiles.length ≤ 1 →
      killCookieFile m = Except.error "Cannot kill the last cookie file.") ∧
    (∀ (c : String) (fs : List String) (cur : Option String), fs ≠ [] → cur = some c →
      killCookieFile ⟨c :: fs, cur⟩ = Except.ok ⟨fs, fs.head?⟩) ∧
    (∀ (cb : Chatbot) (prompt : String) (target : Nat) (o : Outcome)
        (rest : List Outcome) (s s' : IterState),
      s.run < target → handleOutcome cb prompt o s = IterResult.abort s' →
      promptLoopGo cb prompt target (o :: rest) s =
        { temp := s'.temp, cookies := s'.cookies, errorCount := s'.errorCount,
          run := s'.run, leftover := rest, aborted := true, completed := false }) ∧
    (∀ (cb : Chatbot) (runs : Nat) (results : List ResultRecord) (q : String)
        (ps : List String) (outcomes : List Outcome) (temp : List ResultRecord)
        (cookies : List String),
      (promptLoopGo cb q (runs - promptRuns runs cb.name temp results q) outcomes
        { run := 0, errorCount := 0, temp := temp, cookies := cookies }).aborted = true →
      workerGo cb runs results (q :: ps) outcomes temp cookies =
        { temp := (promptLoopGo cb q (runs - promptRuns runs cb.name temp results q) outcomes
            { run := 0, errorCount := 0, temp := temp, cookies := cookies }).temp,
          cookies := (promptLoopGo cb q (runs - promptRuns runs cb.name temp results q) outcomes
            { run := 0, errorCount := 0, temp := temp, cookies := cookies }).cookies,
          leftover := (promptLoopGo cb q (runs - promptRuns runs cb.name temp results q) outcomes
            { run := 0, errorCount := 0, temp := temp, cookies := cookies }).leftover,
          aborted := true }) := by
  refine ⟨?_, ?_, ?_, ?_, ?_⟩
  · intro m
    constructor
    · rintro ⟨e, he⟩
      by_contra hlen
      rw [killCookieFile, if_pos (by omega)] at he
      exact Except.noConfusion he
    · intro hlen
      exact ⟨_, by rw [killCookieFile, if_neg (by omega)]⟩
  · intro m hlen
    rw [killCookieFile, if_neg (by omega)]
  · intro c fs cur hne _
    have hpos : 0 < fs.length := List.length_pos.mpr hne
    rw [killCookieFile, if_pos (by simp; omega)]
    simp
  · intro cb prompt target o rest s s' hrun habort
    simp only [promptLoopGo, if_pos hrun, habort]
  · intro cb runs results q ps outcomes temp cookies h
    rw [workerGo_cons]
    simp only [h, if_true]

theorem credential_exhaustion_terminality_witness :
    killCookieFile ⟨["a"], some "a"⟩ =
      Except.error "Cannot kill the last cookie file." ∧
    killCookieFile ⟨["a", "b"], some "a"⟩ = Except.ok ⟨["b"], some "b"⟩ ∧
    promptLoopGo geminiBot "p" 1
        [Outcome.err (PyError.otherError true "SNlM0e value not found")]
        { run := 0, errorCount := 0, temp := [], cookies := ["c1"] } =
      { temp := [], cookies := ["c1"], errorCount := 0, run := 0,
        leftover := [], aborted := true, completed := false } ∧
    workerGo geminiBot 1 [] ["p"]
        [Outcome.err (PyError.otherError true "SNlM0e value not found")] [] ["c1"] =
      { temp := [], cookies := ["c1"], leftover := [], aborted := true } :=
  ⟨credential_exhaustion_terminality.2.1 ⟨["a"], some "a"⟩ (by decide),
   credential_exhaustion_terminality.2.2.1 "a" ["b"] (some "a") (by decide) rfl,
   credential_exhaustion_terminality.2.2.2.1 geminiBot "p" 1
     (Outcome.err (PyError.otherError true "SNlM0e value not found")) []
     { run := 0, errorCount := 0, temp := [], cookies := ["c1"] }
     { run := 0, errorCount := 0, temp := [], cookies := ["c1"] }
     (by decide) (by decide),
   credential_exhaustion_terminality.2.2.2.2 geminiBot 1 [] "p" []
     [Outcome.err (PyError.otherError true "SNlM0e value not found")] [] ["c1"]
     (by decide)⟩

/-- **C2** — Merge correctness: with the output file holding `J` and the two
(distinct-keyed) adapters' checkpoints holding `A` and `B`, the merge phase
writes back exactly `J ++ A ++ B` (prior output preserved and extended, each
checkpoint appended as a block in adapter order), deletes both checkpoint
files, and the result has `|A| + |B| + |J|` records with every record's
multiplicity preserved (nothing lost, nothing duplicated). -/
theorem merge_correctness (a b : String) (A B J : List ResultRecord)
    (hab : tempKey a ≠ tempKey b) :
    (mergeOutputs [a, b] ⟨some J, [(tempKey a, A), (tempKey b, B)]⟩).output =
      some (J ++ A ++ B) ∧
    (mergeOutputs [a, b] ⟨some J, [(tempKey a, A), (tempKey b, B)]⟩).temps = [] ∧
    (J ++ A ++ B).length = A.length + B.length + J.length ∧
    (∀ rec : ResultRecord,
      countRec (J ++ A ++ B) rec = countRec J rec + countRec A rec + countRec B rec) := by
  have hba : tempKey b ≠ tempKey a := fun h => hab h.symm
  refine ⟨?_, ?_, ?_, ?_⟩
  · simp [mergeOutputs, mergeGo, lookupTemp, removeTemp, hba]
  · simp [mergeOutputs, mergeGo, lookupTemp, removeTemp, hba]
  · simp only [List.length_append]
    omega
  · intro rec
    simp only [countRec, List.filter_append, List.length_append]

theorem merge_correctness_witness :
    (mergeOutputs ["Alpha", "Beta"]
        ⟨some [sampleRec0],
          [(tempKey "Alpha", [sampleRec0, sampleRec1]), (tempKey "Beta", [sampleRec1])]⟩).output =
      some ([sampleRec0] ++ [sampleRec0, sampleRec1] ++ [sampleRec1]) ∧
    (mergeOutputs ["Alpha", "Beta"]
        ⟨some [sampleRec0],
          [(tempKey "Alpha", [sampleRec0, sampleRec1]), (tempKey "Beta", [sampleRec1])]⟩).temps =
      [] :=
  ⟨(merge_correctness "Alpha" "Beta" [sampleRec0, sampleRec1] [sampleRec1] [sampleRec0]
      (by decide)).1,
   (merge_correctness "Alpha" "Beta" [sampleRec0, sampleRec1] [sampleRec1] [sampleRec0]
      (by decide)).2.1⟩

/-- **C4** — The claim (and §4.2's "Must guarantee") requires the checkpoint
rewrite to be an atomic replace that can never lose the prior content; the
code's `open(temp_filename, "w")` + `write` rewrite is not: killed after the
truncating `open` and before the `write`, a checkpoint that held one record
is left empty (prior record lost), whereas the spec's
write-to-temp-then-rename scheme keeps prior-or-new content at every kill
point. -/
theorem checkpoint_rewrite_not_crash_safe :
    ¬ preservesPriorOrNew ⟨some [sampleRec0], none⟩
        (openWriteSave [sampleRec0, sampleRec1]) [sampleRec0] [sampleRec0, sampleRec1] ∧
    preservesPriorOrNew ⟨some [sampleRec0], none⟩
        (atomicReplaceSave [sampleRec0, sampleRec1]) [sampleRec0] [sampleRec0, sampleRec1] ∧
    (runSave ⟨some [sampleRec0], none⟩
        ((openWriteSave [sampleRec0, sampleRec1]).take 1)).checkpointFile = some [] := by
  refine ⟨?_, ?_, rfl⟩
  · unfold preservesPriorOrNew
    decide
  · unfold preservesPriorOrNew
    decide

/-- **C1** — Resume correctness: with `target` computed as the configured
run count minus the capped checkpoint and output counts (the worker's
`prompt_runs` computation; `Nat` subtraction is exactly the
`max(0, runs - prompt_runs)` of the claim), the per-prompt loop performs at
most `target` successful queries, growing the checkpoint's count for the
pair by at most `target`; with a long-enough all-success oracle it performs
exactly `target`; and rerunning the worker on a single prompt after an
interruption that left `k ≤ runs` records (and none in the output file)
finishes with exactly `runs` records for the pair. -/
theorem worker_resume_correctness (cb : Chatbot) (runs target : Nat)
    (results temp : List ResultRecord) (cookies : List String) (prompt : String)
    (outcomes : List Outcome)
    (htarget : target = runs - promptRuns runs cb.name temp results prompt) :
    ((promptLoopGo cb prompt target outcomes
        { run := 0, errorCount := 0, temp := temp, cookies := cookies }).run ≤ target) ∧
    (countTemp (promptLoopGo cb prompt target outcomes
        { run := 0, errorCount := 0, temp := temp, cookies := cookies }).temp prompt ≤
      countTemp temp prompt + target) ∧
    ((∀ o ∈ outcomes, o.isOk = true) → target ≤ outcomes.length →
      countTemp (promptLoopGo cb prompt target outcomes
        { run := 0, errorCount := 0, temp := temp, cookies := cookies }).temp prompt =
        countTemp temp prompt + target) ∧
    (countOut results cb.name prompt = 0 → countTemp temp prompt ≤ runs →
      (∀ o ∈ outcomes, o.isOk = true) →
      runs - countTemp temp prompt ≤ outcomes.length →
      countTemp (workerGo cb runs results [prompt] outcomes temp cookies).temp prompt
        = runs) := by
  obtain ⟨ext, hA, hB, hC, hD, hE, hF⟩ :=
    promptLoopGo_spec cb prompt target outcomes
      { run := 0, errorCount := 0, temp := temp, cookies := cookies }
  set r := promptLoopGo cb prompt target outcomes
    { run := 0, errorCount := 0, temp := temp, cookies := cookies } with hrdef
  have hz : ({ run := 0, errorCount := 0, temp := temp, cookies := cookies } : IterState).run
      = 0 := rfl
  rw [hz] at hB
  have hrun : r.run ≤ target := hD (Nat.zero_le _)
  have hcount : countTemp r.temp prompt = countTemp temp prompt + ext.length := by
    rw [hA, countTemp_append, countTemp_of_all_eq (fun x hx => (hC x hx).1)]
  have hextlen : ext.length = r.run := by omega
  have hexact : (∀ o ∈ outcomes, o.isOk = true) → target ≤ outcomes.length →
      countTemp r.temp prompt = countTemp temp prompt + target := by
    intro hok hlong
    have hcomp := promptLoopGo_allOk cb prompt target outcomes
      { run := 0, errorCount := 0, temp := temp, cookies := cookies } hok (by simpa using hlong)
    have := hF hcomp.1
    omega
  have htargeteq : countOut results cb.name prompt = 0 → countTemp temp prompt ≤ runs →
      target = runs - countTemp temp prompt := by
    intro h0 hkle
    rw [htarget, promptRuns, h0, Nat.min_eq_left hkle]
    simp
  refine ⟨hrun, by omega, hexact, ?_⟩
  intro h0 hkle hok hlong
  have hteq := htargeteq h0 hkle
  rw [workerGo_cons]
  have hnoabort := promptLoopGo_allOk cb prompt
    (runs - promptRuns runs cb.name temp results prompt) outcomes
    { run := 0, errorCount := 0, temp := temp, cookies := cookies } hok
    (by simp; omega)
  rw [← htarget] at hnoabort
  simp only [← htarget, ← hrdef]
  rw [if_neg (by rw [hnoabort.2]; exact Bool.false_ne_true)]
  show countTemp (workerGo cb runs results [] r.leftover r.temp r.cookies).temp prompt = runs
  rw [workerGo]
  have := hexact hok (by omega)
  show countTemp r.temp prompt = runs
  omega

theorem worker_resume_correctness_witness :
    countTemp (workerGo gptBot 3 [] ["p"]
        [Outcome.ok 10 "x", Outcome.ok 11 "y"] [sampleRec0] []).temp "p" = 3 :=
  (worker_resume_correctness gptBot 3
      (3 - promptRuns 3 gptBot.name [sampleRec0] [] "p") [] [sampleRec0] [] "p"
      [Outcome.ok 10 "x", Outcome.ok 11 "y"] rfl).2.2.2
    (by decide) (by decide) (by decide) (by decide)

/-- **C10** — Duplicate prompts do not double work: for any prompt list
(in particular one containing the same text `p` at several positions), the
total number of successful queries the worker performs for text `p` — the
growth of the checkpoint's `p`-record count — never exceeds the run-count
deficit for `p` computed from the initial state (`runs` minus the capped
initial checkpoint and output counts; at most `runs` from an empty state),
because the worker recomputes `prompt_runs` from the in-memory checkpoint at
each list position. -/
theorem duplicate_prompts_no_double_work (cb : Chatbot) (runs : Nat)
    (results : List ResultRecord) (prompts : List String) (outcomes : List Outcome)
    (temp : List ResultRecord) (cookies : List String) (p : String) :
    countTemp (workerGo cb runs results prompts outcomes temp cookies).temp p -
        countTemp temp p ≤
      runs - min (countTemp temp p) runs - min (countOut results cb.name p) runs := by
  obtain ⟨h1, h2, h3⟩ := workerGo_count cb runs results p prompts outcomes temp cookies
  set mo := min (countOut results cb.name p) runs with hmo
  set F := countTemp (workerGo cb runs results prompts outcomes temp cookies).temp p with hF
  rcases Nat.le_total (countTemp temp p) (runs - mo) with h | h
  · have hFle := h2 h
    rcases Nat.le_total (countTemp temp p) runs with hm | hm
    · rw [Nat.min_eq_left hm]
      omega
    · rw [Nat.min_eq_right hm]
      omega
  · have hFeq := h3 h
    omega
